import Mathlib

set_option maxHeartbeats 1000000

/-!
Verification of the ArduCam capture backend (`src/capture/arducam.py`).

The development shallowly embeds the module `arducam.py`:
* Python hex-string manipulation (`hex(n)[2:]`, `.rjust(k, "0")`, slicing,
  `int(s, 16)`) is modelled on lists of base-16 digit values;
* the camera object `ArduCamSource` becomes a state record `SrcState`,
  its methods become Lean functions threading that state explicitly;
* the native library `arducam` (`ac.*`) is an oracle of functions supplied
  as a parameter, whose calls are recorded in a trace;
* Python exceptions become an explicit `Option PyExc` outcome; a handler
  `except X` is a pattern match on that outcome.
-/

/-- Python values that may appear as a camera id (`cam_id`): an `int`, or
some non-integer value (modelled by a string, plus Python `None`). -/
inductive PyVal
  | int (n : Int)
  | str (s : String)
  | pynone
  deriving DecidableEq

/-- `isinstance(v, int)` on a `PyVal`. -/
def PyVal.isInt : PyVal → Bool
  | .int _ => true
  | _ => false

/-- Python `str(v)` as used by f-string interpolation of `cam_id`. -/
def pyStr : PyVal → String
  | .int n => toString n
  | .str s => s
  | .pynone => "None"

/-- The Python exceptions arising in `arducam.py`.  `ArduCamDataTypeError`
is a `TypeError` subclass whose own constructor calls `super.__init__`
incorrectly and itself raises a `TypeError`; either way the observable
exception at the raise site in `_init_cam` is a `TypeError`, modelled as
`typeError`.  `critical` is `ArduCamCriticalError` with its `msg` field,
`captureErr` is `ArduCamCaptureError`. -/
inductive PyExc
  | typeError
  | assertionError
  | keyError
  | attributeError
  | critical (msg : String)
  | captureErr (msg : String)
  deriving DecidableEq

/-- Digits of Python `hex(n)[2:]` (most-significant first, no `0x`), for
`n < 2 ^ 16`; every value fed to `hex` in `arducam.py` is a register byte
(`< 256`) or an exposure value guarded by `assert ... <= 0xffff`. -/
def pyHexDigits (n : Nat) : List Nat :=
  if n < 16 then [n]
  else if n < 256 then [n / 16, n % 16]
  else if n < 4096 then [n / 256, n / 16 % 16, n % 16]
  else [n / 4096, n / 256 % 16, n / 16 % 16, n % 16]

/-- Python `s.rjust(k, "0")` on a digit string. -/
def rjust0 (k : Nat) (ds : List Nat) : List Nat :=
  List.replicate (k - ds.length) 0 ++ ds

/-- Python `int(s, 16)` on a digit string. -/
def intOfHex (ds : List Nat) : Nat :=
  ds.foldl (fun a d => a * 16 + d) 0

/-- `hex(r)[2:].rjust(2, "0")` as digits. -/
def hexStr2 (r : Nat) : List Nat := rjust0 2 (pyHexDigits r)

/-- `hex(v)[2:].rjust(4, "0")` as digits. -/
def hexStr4 (v : Nat) : List Nat := rjust0 4 (pyHexDigits v)

/-- The sensor registers touched by `arducam.py`: the three exposure
registers 0x3500..0x3502 and the two frame-length registers 0x380e/0x380f.
Each holds one byte on the device; `ac.read_reg`/`ac.write_reg` access
this register file. -/
structure Regs where
  r3500 : Nat
  r3501 : Nat
  r3502 : Nat
  r380e : Nat
  r380f : Nat
  deriving DecidableEq

/-- The `exposure_time` property getter, line for line:
`int(hex(read(0x3500))[2:].rjust(2,"0")[1]
   + hex(read(0x3501))[2:].rjust(2,"0")
   + hex(read(0x3502))[2:].rjust(2,"0")[:1], 16)`. -/
def exposure_decode (r : Regs) : Nat :=
  intOfHex ([(hexStr2 r.r3500).getD 1 0]
    ++ hexStr2 r.r3501
    ++ (hexStr2 r.r3502).take 1)

/-- The register writes performed by the `exposure_time` setter body once
the range assertion has passed: with `h = hex(v)[2:].rjust(4,"0")`,
write `0x3500 := int(hex(read(0x3500))[2:].rjust(2,"0")[0] + h[0], 16)`,
`0x3501 := int(h[1:3], 16)`,
`0x3502 := int(h[3] + hex(read(0x3502))[2:].rjust(2,"0")[1], 16)`. -/
def exposure_encode (v : Nat) (r : Regs) : Regs :=
  let h := hexStr4 v
  let w0 := intOfHex [(hexStr2 r.r3500).getD 0 0, h.getD 0 0]
  let w1 := intOfHex ((h.drop 1).take 2)
  let w2 := intOfHex [h.getD 3 0, (hexStr2 r.r3502).getD 1 0]
  { r with r3500 := w0, r3501 := w1, r3502 := w2 }

theorem hexStr2_of_lt (r : Nat) (h : r < 256) :
    hexStr2 r = [r / 16, r % 16] := by
  unfold hexStr2 pyHexDigits rjust0
  by_cases h16 : r < 16
  · rw [if_pos h16]
    simp [Nat.div_eq_of_lt h16, Nat.mod_eq_of_lt h16, List.replicate]
  · rw [if_neg h16, if_pos h]
    simp

theorem hexStr4_of_lt (v : Nat) (h : v < 65536) :
    hexStr4 v = [v / 4096, v / 256 % 16, v / 16 % 16, v % 16] := by
  unfold hexStr4 pyHexDigits rjust0
  by_cases h16 : v < 16
  · rw [if_pos h16]
    have d1 : v / 4096 = 0 := Nat.div_eq_of_lt (by omega)
    have d2 : v / 256 = 0 := Nat.div_eq_of_lt (by omega)
    have d3 : v / 16 = 0 := Nat.div_eq_of_lt h16
    simp [d1, d2, d3, Nat.mod_eq_of_lt h16, List.replicate]
  · rw [if_neg h16]
    by_cases h256 : v < 256
    · rw [if_pos h256]
      have d1 : v / 4096 = 0 := Nat.div_eq_of_lt (by omega)
      have d2 : v / 256 = 0 := Nat.div_eq_of_lt h256
      have d3 : v / 16 < 16 := by omega
      simp [d1, d2, Nat.mod_eq_of_lt d3, List.replicate]
    · rw [if_neg h256]
      by_cases h4096 : v < 4096
      · rw [if_pos h4096]
        have d1 : v / 4096 = 0 := Nat.div_eq_of_lt h4096
        have d2 : v / 256 < 16 := by omega
        simp [d1, Nat.mod_eq_of_lt d2, List.replicate]
      · rw [if_neg h4096]
        simp [List.replicate]

/-- After encoding, each exposure register again holds a single byte. -/
theorem exposure_encode_bytes (v : Nat) (r : Regs)
    (hv : v < 65536) (hb0 : r.r3500 < 256) (hb2 : r.r3502 < 256) :
    (exposure_encode v r).r3500 < 256 ∧ (exposure_encode v r).r3501 < 256 ∧
      (exposure_encode v r).r3502 < 256 := by
  unfold exposure_encode
  rw [hexStr2_of_lt r.r3500 hb0, hexStr2_of_lt r.r3502 hb2, hexStr4_of_lt v hv]
  simp only [intOfHex, List.getD, List.foldl, List.drop, List.take, List.get?]
  refine ⟨?_, ?_, ?_⟩ <;> simp <;> omega

/-- Decoding the encoded registers recovers the exposure value. -/
theorem exposure_decode_encode (v : Nat) (r : Regs)
    (hv : v < 65536) (hb0 : r.r3500 < 256) (hb2 : r.r3502 < 256) :
    exposure_decode (exposure_encode v r) = v := by
  have hb := exposure_encode_bytes v r hv hb0 hb2
  unfold exposure_decode
  rw [hexStr2_of_lt _ hb.1, hexStr2_of_lt _ hb.2.1, hexStr2_of_lt _ hb.2.2]
  unfold exposure_encode
  rw [hexStr2_of_lt r.r3500 hb0, hexStr2_of_lt r.r3502 hb2, hexStr4_of_lt v hv]
  simp only [intOfHex, List.getD, List.foldl, List.drop, List.take, List.get?,
    List.take_cons, List.append_assoc, List.cons_append, List.nil_append]
  simp
  omega

/-- An n-dimensional numpy array, abstracted to its shape and flat
(row-major) contents. -/
structure NDArray where
  shape : List Nat
  data : List Nat
  deriving DecidableEq

/-- `np.zeros(frame_size)` for a 2-tuple `frame_size`: the zero-filled
buffer of that shape. -/
def npZeros (sz : Nat × Nat) : NDArray :=
  { shape := [sz.1, sz.2], data := List.replicate (sz.1 * sz.2) 0 }

/-- The two value shapes `capture_frame` can return: a bare `np.ndarray`
(the degraded paths, `return np.zeros(self._frame_size)`) or the tuple
`(np.array(img), time.time())` of the success path.  `np.array` on an
array-like is modelled as the identity on `NDArray`. -/
inductive PyRet
  | bare (buf : NDArray)
  | tup (buf : NDArray) (t : Nat)
  deriving DecidableEq

/-- Whether a `capture_frame` return value is the tuple shape. -/
def PyRet.isTup : PyRet → Bool
  | .bare _ => false
  | .tup _ _ => true

/-- One call into the native `arducam` library, as recorded in a trace. -/
inductive NCall
  | initDevice (cfg : String) (camId : PyVal)
  | beginCapture (camId : PyVal)
  | endCapture (camId : PyVal)
  | closeDevice (camId : PyVal)
  | captureImg (camId : PyVal)
  | readReg (camId : PyVal) (addr : Nat)
  | writeReg (camId : PyVal) (addr : Nat) (val : Nat)
  deriving DecidableEq

/-- Oracle for the native `arducam` library: each operation either raises
`RuntimeError` (the `.error` case, carrying the error text) or returns its
result.  `now` is the value `time.time()` produces during the call. -/
structure Native where
  init_device : String → PyVal → Except String Nat
  begin_capture : PyVal → Except String Nat
  end_capture : PyVal → Except String Unit
  close_device : PyVal → Except String Unit
  capture_img : PyVal → Except String (Option NDArray)
  now : Nat

/-- The state of one `ArduCamSource` object together with its device's
register file.  `idx_backup` models the attribute `_idx_backup` read by
`frame_length`: `Option.none` means the attribute was never assigned, so
reading it raises `AttributeError`. -/
structure SrcState where
  cam_id : PyVal
  frame_size : Nat × Nat
  frame_rate : Nat
  cfg_file : String
  active : Bool
  init_done : Bool
  idx_backup : Option PyVal
  regs : Regs
  deriving DecidableEq

/-- Result of running one method: `exc` is the exception propagating out
(`Option.none` = returned normally), `ret` the returned value, `state` the
object/register state afterwards (mutations persist even when an exception
escapes), `calls` the native calls made, `log` the `logger.debug` lines. -/
structure Res (α : Type) where
  exc : Option PyExc
  ret : Option α
  state : SrcState
  calls : List NCall
  log : List String
  deriving DecidableEq

/-- The module-level `ERROR_CODES` dict: status code to taxonomy label;
`Option.none` models an absent key (subscripting raises `KeyError`). -/
def ERROR_CODES (code : Nat) : Option String :=
  if code = 0x0000 then some "USB_CAMERA_NO_ERROR"
  else if code = 0xFF01 then some "USB_CAMERA_USB_CREATE_ERROR"
  else if code = 0xFF02 then some "USB_CAMERA_USB_SET_CONTEXT_ERROR"
  else if code = 0xFF03 then some "USB_CAMERA_VR_COMMAND_ERROR"
  else if code = 0xFF04 then some "USB_CAMERA_USB_VERSION_ERROR"
  else if code = 0xFF05 then some "USB_CAMERA_BUFFER_ERROR"
  else if code = 0xFF0B then some "USB_CAMERA_I2C_BIT_ERROR"
  else if code = 0xFF0C then some "USB_CAMERA_I2C_NACK_ERROR"
  else if code = 0xFF0D then some "USB_CAMERA_I2C_TIMEOUT"
  else if code = 0xFF20 then some "USB_CAMERA_USB_TASK_ERROR"
  else if code = 0xFF21 then some "USB_CAMERA_DATA_OVERFLOW_ERROR"
  else if code = 0xFF22 then some "USB_CAMERA_DATA_LACK_ERROR"
  else if code = 0xFF23 then some "USB_CAMERA_FIFO_FULL_ERROR"
  else if code = 0xFF24 then some "USB_CAMERA_DATA_LEN_ERROR"
  else if code = 0xFF25 then some "USB_CAMERA_FRAME_INDEX_ERROR"
  else if code = 0xFF26 then some "USB_CAMERA_USB_TIMEOUT_ERROR"
  else if code = 0xFF30 then some "USB_CAMERA_READ_EMPTY_ERROR"
  else if code = 0xFF31 then some "USB_CAMERA_DEL_EMPTY_ERROR"
  else if code = 0xFF51 then some "USB_CAMERA_SIZE_EXCEED_ERROR"
  else if code = 0xFF61 then some "USB_USERDATA_ADDR_ERROR"
  else if code = 0xFF62 then some "USB_USERDATA_LEN_ERROR"
  else if code = 0xFF71 then some "USB_BOARD_FW_VERSION_NOT_SUPPORT_ERROR"
  else if code = 0x10000 then some "config file not found"
  else Option.none

/-- Message of the critical error raised when `ac.initialize_device`
itself raises `RuntimeError`. -/
def openLibErrMsg (cid : PyVal) (e : String) : String :=
  "Error opening ArduCam with id " ++ pyStr cid ++ ": " ++ e
    ++ ". This is an error within the ArduCam interface library. Abandon all hope ye who enter there."

/-- Everything before the taxonomy label in the init status-code message. -/
def openCodeErrPfx (cid : PyVal) (ret : Nat) : String :=
  "Error opening ArduCam with id " ++ pyStr cid ++ ": " ++ toString ret ++ ", "

/-- `f"Error opening ArduCam with id {cid}: {ret}, {ERROR_CODES[ret]}"`. -/
def openCodeErrMsg (cid : PyVal) (ret : Nat) (lbl : String) : String :=
  openCodeErrPfx cid ret ++ lbl

/-- Message of the critical error raised when `ac.begin_capture` itself
raises `RuntimeError`. -/
def beginLibErrMsg (cid : PyVal) (e : String) : String :=
  "Error beginning capture on ArduCam with id " ++ pyStr cid ++ ": " ++ e
    ++ ". This is an error within the ArduCam interface library. Abandon all hope ye who enter there."

/-- Everything before the taxonomy label in the begin-capture status-code
message (the word order "capture ArduCam on with" is the source's own). -/
def beginCodeErrPfx (cid : PyVal) (ret : Nat) : String :=
  "Error beginning capture ArduCam on with id " ++ pyStr cid ++ ": " ++ toString ret ++ ", "

/-- `f"Error beginning capture ArduCam on with id {cid}: {ret}, {ERROR_CODES[ret]}"`. -/
def beginCodeErrMsg (cid : PyVal) (ret : Nat) (lbl : String) : String :=
  beginCodeErrPfx cid ret ++ lbl

/-- `ArduCamSource._init_cam`: type-check the id, call
`ac.initialize_device`, check its status code against 0x0000, call
`ac.begin_capture`, check its status code, and set `_active = True` on
full success.  A non-0 status code makes the method build
`ERROR_CODES[ret]` (raising `KeyError` on an unknown code) and raise
`ArduCamCriticalError`; a native `RuntimeError` is wrapped into
`ArduCamCriticalError`. -/
def init_cam (o : Native) (s : SrcState) : Res Unit :=
  if s.cam_id.isInt = false then
    ⟨some PyExc.typeError, Option.none, s, [], []⟩
  else
    let l0 := ["Attempting to open ArduCam with id " ++ pyStr s.cam_id]
    match o.init_device s.cfg_file s.cam_id with
    | .error e =>
      ⟨some (PyExc.critical (openLibErrMsg s.cam_id e)), Option.none, s,
        [NCall.initDevice s.cfg_file s.cam_id], l0⟩
    | .ok ret =>
      if ret = 0 then
        let l1 := l0 ++ ["Success opening ArduCam with id " ++ pyStr s.cam_id,
          "Attempting to begin capture on ArduCam with id " ++ pyStr s.cam_id]
        match o.begin_capture s.cam_id with
        | .error e =>
          ⟨some (PyExc.critical (beginLibErrMsg s.cam_id e)), Option.none, s,
            [NCall.initDevice s.cfg_file s.cam_id, NCall.beginCapture s.cam_id], l1⟩
        | .ok ret2 =>
          if ret2 = 0 then
            ⟨Option.none, some (), { s with active := true },
              [NCall.initDevice s.cfg_file s.cam_id, NCall.beginCapture s.cam_id],
              l1 ++ ["Success beginning capture on ArduCam with id " ++ pyStr s.cam_id]⟩
          else
            match ERROR_CODES ret2 with
            | Option.none =>
              ⟨some PyExc.keyError, Option.none, s,
                [NCall.initDevice s.cfg_file s.cam_id, NCall.beginCapture s.cam_id], l1⟩
            | some lbl =>
              ⟨some (PyExc.critical (beginCodeErrMsg s.cam_id ret2 lbl)), Option.none, s,
                [NCall.initDevice s.cfg_file s.cam_id, NCall.beginCapture s.cam_id], l1⟩
      else
        match ERROR_CODES ret with
        | Option.none =>
          ⟨some PyExc.keyError, Option.none, s,
            [NCall.initDevice s.cfg_file s.cam_id], l0⟩
        | some lbl =>
          ⟨some (PyExc.critical (openCodeErrMsg s.cam_id ret lbl)), Option.none, s,
            [NCall.initDevice s.cfg_file s.cam_id], l0⟩

/-- The shared `try: self._init_cam() except ArduCamCriticalError: log
else: self._init_done = True` block of `__init__` and `re_init`.  Only
`ArduCamCriticalError` is caught (and its `msg` logged); `TypeError` and
`KeyError` keep propagating. -/
def init_catching (o : Native) (s : SrcState) : Res Unit :=
  match init_cam o s with
  | ⟨some (PyExc.critical m), _, s1, cs, lg⟩ => ⟨Option.none, some (), s1, cs, lg ++ [m]⟩
  | ⟨some e, _, s1, cs, lg⟩ => ⟨some e, Option.none, s1, cs, lg⟩
  | ⟨Option.none, _, s1, cs, lg⟩ =>
    ⟨Option.none, some (), { s1 with init_done := true }, cs, lg⟩

/-- `ArduCamSource.__init__`: store the construction arguments, set
`_active = False` and `_init_done = False`, then run `_init_cam` under the
catching block.  `devRegs` is the device's current register file. -/
def mk (o : Native) (cam_id : PyVal) (frame_size : Nat × Nat) (frame_rate : Nat)
    (cfg_file : String) (devRegs : Regs) : Res Unit :=
  init_catching o
    ⟨cam_id, frame_size, frame_rate, cfg_file, false, false, Option.none, devRegs⟩

/-- `ArduCamSource.close`: best-effort `ac.end_capture` then
`ac.close_device`; a `RuntimeError` from either is caught and logged.  The
flags `_active`/`_init_done` are not touched. -/
def close (o : Native) (s : SrcState) : Res Unit :=
  let l0 := "Attempting shutdown of ArduCam with id " ++ pyStr s.cam_id
  let lerr := "Error while shutting down ArduCam with id " ++ pyStr s.cam_id
  let lend := "Shutdown of ArduCam with id " ++ pyStr s.cam_id ++ " complete"
  match o.end_capture s.cam_id with
  | .error _ => ⟨Option.none, some (), s, [NCall.endCapture s.cam_id], [l0, lerr, lend]⟩
  | .ok _ =>
    match o.close_device s.cam_id with
    | .error _ =>
      ⟨Option.none, some (), s,
        [NCall.endCapture s.cam_id, NCall.closeDevice s.cam_id], [l0, lerr, lend]⟩
    | .ok _ =>
      ⟨Option.none, some (), s,
        [NCall.endCapture s.cam_id, NCall.closeDevice s.cam_id], [l0, lend]⟩

/-- `ArduCamSource.re_init`: set `_active = False` and
`_init_done = False`, call `close`, assign `_cam_id = new_id`, and re-run
`_init_cam` under the same catching block as construction. -/
def re_init (o : Native) (s : SrcState) (new_id : PyVal) : Res Unit :=
  let s1 := { s with active := false, init_done := false }
  let c := close o s1
  let w := init_catching o { c.state with cam_id := new_id }
  ⟨w.exc, w.ret, w.state, c.calls ++ w.calls, c.log ++ w.log⟩

/-- `ArduCamSource.capture_frame`: inactive sources return
`np.zeros(frame_size)` with no native call; otherwise `ac.capture_img` is
called — `RuntimeError` becomes `ArduCamCaptureError`, a `None` image is
logged and degrades to `np.zeros(frame_size)`, and an image yields
`(np.array(img), time.time())`. -/
def capture_frame (o : Native) (s : SrcState) : Res PyRet :=
  if s.active = false then
    ⟨Option.none, some (PyRet.bare (npZeros s.frame_size)), s, [], []⟩
  else
    match o.capture_img s.cam_id with
    | .error _ =>
      ⟨some (PyExc.captureErr
          ("Critical error while capturing frame on camera id " ++ pyStr s.cam_id)),
        Option.none, s, [NCall.captureImg s.cam_id], []⟩
    | .ok Option.none =>
      ⟨Option.none, some (PyRet.bare (npZeros s.frame_size)), s,
        [NCall.captureImg s.cam_id],
        ["Failed to capture frame on camera id " ++ pyStr s.cam_id ++ " (img = None)"]⟩
    | .ok (some img) =>
      ⟨Option.none, some (PyRet.tup img o.now), s, [NCall.captureImg s.cam_id], []⟩

/-- The `exposure_time` property getter: three `ac.read_reg` calls and the
nibble-level decode.  (Its `except KeyError: return -1` is dead here,
since `read_reg` on the register file cannot raise.) -/
def get_exposure (s : SrcState) : Res Int :=
  ⟨Option.none, some (Int.ofNat (exposure_decode s.regs)), s,
    [NCall.readReg s.cam_id 0x3500, NCall.readReg s.cam_id 0x3501,
      NCall.readReg s.cam_id 0x3502], []⟩

/-- The `exposure_time` property setter: `assert 0 < v <= 0xffff` then the
read-modify-write sequence of `exposure_encode`.  A failing assertion
raises `AssertionError`, which the surrounding `except KeyError` does not
catch, so it propagates with no register access performed. -/
def set_exposure (s : SrcState) (v : Int) : Res Unit :=
  if 0 < v ∧ v ≤ 0xffff then
    let r := exposure_encode v.toNat s.regs
    ⟨Option.none, some (), { s with regs := r },
      [NCall.readReg s.cam_id 0x3500, NCall.writeReg s.cam_id 0x3500 r.r3500,
        NCall.writeReg s.cam_id 0x3501 r.r3501, NCall.readReg s.cam_id 0x3502,
        NCall.writeReg s.cam_id 0x3502 r.r3502], []⟩
  else
    ⟨some PyExc.assertionError, Option.none, s, [], []⟩

/-- The `frame_length` property: reads `self._idx_backup` and uses it as
the device id for two register reads.  When the attribute was never
assigned the read raises `AttributeError` before any native call. -/
def frame_length (s : SrcState) : Res Int :=
  match s.idx_backup with
  | Option.none => ⟨some PyExc.attributeError, Option.none, s, [], []⟩
  | some idx =>
    ⟨Option.none, some (Int.ofNat (s.regs.r380e * 0x100 + s.regs.r380f)), s,
      [NCall.readReg idx 0x380e, NCall.readReg idx 0x380f], []⟩

/-- One public operation on an `ArduCamSource`. -/
inductive Op
  | capture
  | closeOp
  | reInit (nid : PyVal)
  | getExp
  | setExp (v : Int)
  | getFrameLen
  deriving DecidableEq

/-- The object/register state after running one public operation (kept
even when the operation raises, matching Python mutation semantics). -/
def applyOp (o : Native) (s : SrcState) : Op → SrcState
  | .capture => (capture_frame o s).state
  | .closeOp => (close o s).state
  | .reInit nid => (re_init o s nid).state
  | .getExp => (get_exposure s).state
  | .setExp v => (set_exposure s v).state
  | .getFrameLen => (frame_length s).state

/-- Run a sequence of public operations, each against its own native
oracle (native behaviour may differ call to call). -/
def runOps (s : SrcState) : List (Native × Op) → SrcState
  | [] => s
  | p :: rest => runOps (applyOp p.1 s p.2) rest

/-- The first non-success status code the construction protocol observes
for this oracle, if the protocol reaches a status-code check at all. -/
def firstFailCode (o : Native) (cfg : String) (cid : Int) : Option Nat :=
  match o.init_device cfg (PyVal.int cid) with
  | .error _ => Option.none
  | .ok r =>
    if r = 0 then
      match o.begin_capture (PyVal.int cid) with
      | .error _ => Option.none
      | .ok r2 => if r2 = 0 then Option.none else some r2
    else some r

/-- A register file with arbitrary non-trivial byte contents. -/
def regsDemo : Regs := ⟨0xAB, 0xCD, 0xEF, 0x02, 0x8E⟩

/-- A source whose init and begin-capture both succeeded. -/
def sActive : SrcState :=
  ⟨PyVal.int 0, (2, 3), 60, "cfg", true, true, Option.none, regsDemo⟩

/-- The same source with the capture session inactive. -/
def sInactive : SrcState := { sActive with active := false, init_done := false }

/-- Oracle on which every native call succeeds but `capture_img` reports
no image. -/
def oNoImage : Native :=
  ⟨fun _ _ => .ok 0, fun _ => .ok 0, fun _ => .ok (), fun _ => .ok (),
    fun _ => .ok Option.none, 1700000000⟩

/-- Oracle on which every native call succeeds and `capture_img` returns
a small image. -/
def oGood : Native :=
  { oNoImage with capture_img := fun _ => .ok (some ⟨[2, 3], [1, 2, 3, 4, 5, 6]⟩) }

/-- Oracle whose `initialize_device` returns status code 0x1234, a code
with no entry in `ERROR_CODES`. -/
def oUnknownCode : Native := { oNoImage with init_device := fun _ _ => .ok 0x1234 }

/-- Oracle whose `begin_capture` returns status code 0xFF71
(`USB_BOARD_FW_VERSION_NOT_SUPPORT_ERROR`). -/
def oFw71 : Native := { oNoImage with begin_capture := fun _ => .ok 0xFF71 }

/-- C2: for every legal exposure value v (the legal range of the 16-bit
field being 0 < v ≤ 0xffff) and any previous byte contents of registers
0x3500, 0x3501, 0x3502, the exposure setter raises nothing and a
subsequent exposure getter returns exactly v: the nibble-level decode of
the setter's encode is the identity on legal values. -/
theorem set_get_exposure_roundtrip (s : SrcState) (v : Int)
    (h1 : 0 < v) (h2 : v ≤ 0xffff)
    (hb0 : s.regs.r3500 < 256) (hb2 : s.regs.r3502 < 256) :
    (set_exposure s v).exc = Option.none ∧
      (get_exposure (set_exposure s v).state).ret = some v := by
  unfold set_exposure
  rw [if_pos (show 0 < v ∧ v ≤ 0xffff from ⟨h1, h2⟩)]
  refine ⟨rfl, ?_⟩
  unfold get_exposure
  simp only [Option.some.injEq]
  rw [exposure_decode_encode v.toNat s.regs (by omega) hb0 hb2,
    Int.ofNat_eq_natCast]
  omega

/-- C2 witness: setting exposure 0x1234 over previous register bytes
0xAB/0xCD/0xEF and reading it back yields 0x1234. -/
theorem set_get_exposure_roundtrip_witness :
    ((0 : Int) < 0x1234 ∧ (0x1234 : Int) ≤ 0xffff) ∧
      (get_exposure (set_exposure sActive 0x1234).state).ret = some 0x1234 :=
  ⟨⟨by decide, by decide⟩,
    (set_get_exposure_roundtrip sActive 0x1234 (by decide) (by decide)
      (by decide) (by decide)).2⟩

/-- C3 counterexample: calling the setter with 0 (outside the legal
range) raises an AssertionError that propagates to the caller — the
surrounding `except KeyError` does not catch it — so the caller does
receive a hard error, contrary to the claim. -/
theorem set_exposure_zero_raises :
    (set_exposure sActive 0).exc = some PyExc.assertionError := by decide

/-- C3 amended: for every value outside the legal range (including 0),
the setter is rejected before any register access — no native call is
made and the stored register contents (hence a subsequent get_exposure)
are unchanged — but the failed `assert` propagates as an AssertionError
to the caller, since the `except KeyError` clause does not catch it. -/
theorem set_exposure_out_of_range (s : SrcState) (v : Int)
    (h : ¬(0 < v ∧ v ≤ 0xffff)) :
    (set_exposure s v).state = s ∧ (set_exposure s v).calls = [] ∧
      (set_exposure s v).exc = some PyExc.assertionError ∧
      (get_exposure (set_exposure s v).state).ret = (get_exposure s).ret := by
  unfold set_exposure
  rw [if_neg h]
  exact ⟨rfl, rfl, rfl, rfl⟩

/-- C3 amended witness: at value 0 the setter leaves the state unchanged,
performs no native call, and raises AssertionError. -/
theorem set_exposure_out_of_range_witness :
    (¬((0 : Int) < 0 ∧ (0 : Int) ≤ 0xffff)) ∧
      ((set_exposure sActive 0).state = sActive ∧
        (set_exposure sActive 0).calls = [] ∧
        (set_exposure sActive 0).exc = some PyExc.assertionError ∧
        (get_exposure (set_exposure sActive 0).state).ret
          = (get_exposure sActive).ret) :=
  ⟨by decide, set_exposure_out_of_range sActive 0 (by decide)⟩

/-- C7: for every legal exposure value and previous byte contents of
0x3500 and 0x3502, the setter's read-modify-write changes only the bits
owned by the exposure field: the high (unused) nibble of 0x3500 and the
low (debug) nibble of 0x3502 keep exactly their previous values, the bits
the field owns hold the corresponding nibbles of v, and 0x3501 is a
function of v alone. -/
theorem set_exposure_preserves_foreign_bits (s : SrcState) (v : Int)
    (h1 : 0 < v) (h2 : v ≤ 0xffff)
    (hb0 : s.regs.r3500 < 256) (hb2 : s.regs.r3502 < 256) :
    (set_exposure s v).state.regs.r3500 / 16 = s.regs.r3500 / 16 ∧
      (set_exposure s v).state.regs.r3500 % 16 = v.toNat / 4096 ∧
      (set_exposure s v).state.regs.r3501
        = v.toNat / 256 % 16 * 16 + v.toNat / 16 % 16 ∧
      (set_exposure s v).state.regs.r3502 / 16 = v.toNat % 16 ∧
      (set_exposure s v).state.regs.r3502 % 16 = s.regs.r3502 % 16 := by
  unfold set_exposure
  rw [if_pos (show 0 < v ∧ v ≤ 0xffff from ⟨h1, h2⟩)]
  show (exposure_encode v.toNat s.regs).r3500 / 16 = s.regs.r3500 / 16 ∧ _
  unfold exposure_encode
  rw [hexStr2_of_lt _ hb0, hexStr2_of_lt _ hb2, hexStr4_of_lt _ (by omega)]
  simp only [intOfHex, List.getD, List.foldl, List.drop, List.take, List.get?]
  refine ⟨?_, ?_, ?_, ?_, ?_⟩ <;> simp <;> omega

/-- C7 witness: setting exposure 0x1234 over register bytes 0xAB and 0xEF
keeps the high nibble 0xA of 0x3500 and the low nibble 0xF of 0x3502. -/
theorem set_exposure_preserves_foreign_bits_witness :
    ((0 : Int) < 0x1234 ∧ (0x1234 : Int) ≤ 0xffff) ∧
      (set_exposure sActive 0x1234).state.regs.r3500 / 16 = 0xA ∧
      (set_exposure sActive 0x1234).state.regs.r3502 % 16 = 0xF :=
  ⟨⟨by decide, by decide⟩,
    (set_exposure_preserves_foreign_bits sActive 0x1234 (by decide) (by decide)
      (by decide) (by decide)).1,
    (set_exposure_preserves_foreign_bits sActive 0x1234 (by decide) (by decide)
      (by decide) (by decide)).2.2.2.2⟩

/-- C4 counterexample: `capture_frame` on an inactive source returns a
bare buffer (not a pair), while on an active source with an image it
returns a (buffer, timestamp) pair — the two paths do not share one
return shape, so downstream callers must special-case. -/
theorem capture_frame_not_always_pair :
    ((capture_frame oNoImage sInactive).ret).map PyRet.isTup = some false ∧
      ((capture_frame oGood sActive).ret).map PyRet.isTup = some true := by
  decide

/-- C4 amended: `capture_frame` has exactly two normal return shapes —
the degraded paths (inactive source, or native layer returning no image)
return the bare zero-filled buffer of frame_size, and the success path
returns a (buffer, timestamp) pair — besides the capture-error raise;
the degraded and success paths therefore do not share one shape. -/
theorem capture_frame_shapes (o : Native) (s : SrcState) :
    (capture_frame o s).ret = some (PyRet.bare (npZeros s.frame_size)) ∨
      (∃ img, (capture_frame o s).ret = some (PyRet.tup img o.now)) ∨
      ((capture_frame o s).ret = Option.none ∧
        ∃ m, (capture_frame o s).exc = some (PyExc.captureErr m)) := by
  unfold capture_frame
  by_cases h : s.active = false
  · rw [if_pos h]
    left
    rfl
  · rw [if_neg h]
    cases hc : o.capture_img s.cam_id with
    | error e =>
      right; right
      exact ⟨rfl, _, rfl⟩
    | ok oi =>
      cases oi with
      | none =>
        left
        rfl
      | some img =>
        right; left
        exact ⟨img, rfl⟩

/-- C5: whenever `active` is false, `capture_frame` returns the
zero-filled buffer of exactly frame_size with no native call made; and
whenever `active` is true and the native layer returns no image without
raising, it returns the same zero-filled buffer and raises nothing. -/
theorem capture_frame_degraded (o : Native) (s : SrcState) :
    (s.active = false →
      capture_frame o s =
        ⟨Option.none, some (PyRet.bare (npZeros s.frame_size)), s, [], []⟩) ∧
      (s.active = true → o.capture_img s.cam_id = .ok Option.none →
        (capture_frame o s).exc = Option.none ∧
          (capture_frame o s).ret = some (PyRet.bare (npZeros s.frame_size))) := by
  constructor
  · intro h
    unfold capture_frame
    rw [if_pos h]
  · intro h hc
    unfold capture_frame
    rw [if_neg (by simp [h]), hc]
    exact ⟨rfl, rfl⟩

/-- C5 witness: the inactive source yields the zero buffer with an empty
native-call trace, and the active source with a None image yields the
same zero buffer without raising. -/
theorem capture_frame_degraded_witness :
    sInactive.active = false ∧
      capture_frame oNoImage sInactive =
        ⟨Option.none, some (PyRet.bare (npZeros sInactive.frame_size)),
          sInactive, [], []⟩ ∧
      sActive.active = true ∧
      oNoImage.capture_img sActive.cam_id = .ok Option.none ∧
      (capture_frame oNoImage sActive).exc = Option.none ∧
      (capture_frame oNoImage sActive).ret
        = some (PyRet.bare (npZeros sActive.frame_size)) :=
  ⟨rfl, (capture_frame_degraded oNoImage sInactive).1 rfl, rfl, rfl,
    ((capture_frame_degraded oNoImage sActive).2 rfl rfl).1,
    ((capture_frame_degraded oNoImage sActive).2 rfl rfl).2⟩

/-- C6: constructing an `ArduCamSource` with a non-integer id raises the
TypeError to the immediate caller with no native call made — unlike
critical errors, the validation error is not caught and converted into an
inert state. -/
theorem mk_nonint_raises (o : Native) (v : PyVal) (fs : Nat × Nat) (fr : Nat)
    (cfg : String) (dr : Regs) (h : v.isInt = false) :
    (mk o v fs fr cfg dr).exc = some PyExc.typeError ∧
      (mk o v fs fr cfg dr).calls = [] ∧
      (mk o v fs fr cfg dr).ret = Option.none := by
  unfold mk init_catching init_cam
  simp only [h]
  exact ⟨rfl, rfl, rfl⟩

/-- C6 witness: construction with the string id "zero" raises TypeError
before any native call. -/
theorem mk_nonint_raises_witness :
    (PyVal.str "zero").isInt = false ∧
      (mk oNoImage (PyVal.str "zero") (2, 3) 60 "cfg" regsDemo).exc
        = some PyExc.typeError ∧
      (mk oNoImage (PyVal.str "zero") (2, 3) 60 "cfg" regsDemo).calls = [] :=
  ⟨rfl, (mk_nonint_raises oNoImage (PyVal.str "zero") (2, 3) 60 "cfg" regsDemo rfl).1,
    (mk_nonint_raises oNoImage (PyVal.str "zero") (2, 3) 60 "cfg" regsDemo rfl).2.1⟩

/-- `close` never raises and never changes the object state: both native
teardown calls are wrapped in `except RuntimeError`, which only logs. -/
theorem close_no_raise (o : Native) (t : SrcState) :
    (close o t).exc = Option.none ∧ (close o t).state = t ∧
      (close o t).ret = some () := by
  unfold close
  cases o.end_capture t.cam_id with
  | error e => exact ⟨rfl, rfl, rfl⟩
  | ok u =>
    cases o.close_device t.cam_id with
    | error e => exact ⟨rfl, rfl, rfl⟩
    | ok u2 => exact ⟨rfl, rfl, rfl⟩

/-- `_init_cam` either completes normally having set `_active = True`, or
raises leaving the state exactly as it was. -/
theorem init_cam_state_cases (o : Native) (s : SrcState) :
    ((init_cam o s).exc = Option.none ∧
        (init_cam o s).state = { s with active := true }) ∨
      ((init_cam o s).exc ≠ Option.none ∧ (init_cam o s).state = s) := by
  unfold init_cam
  repeat' split
  all_goals
    first
      | exact Or.inl ⟨rfl, rfl⟩
      | exact Or.inr ⟨fun hcon => Option.noConfusion hcon, rfl⟩

/-- The construction block leaves the state either fully activated (init
and begin-capture succeeded, `_init_done` then set) or exactly as it
entered (every failure path). -/
theorem init_catching_state_cases (o : Native) (s : SrcState) :
    (init_catching o s).state = { s with active := true, init_done := true } ∨
      (init_catching o s).state = s := by
  have hc := init_cam_state_cases o s
  rcases h : init_cam o s with ⟨e, r, st, cs, lg⟩
  rw [h] at hc
  unfold init_catching
  rw [h]
  rcases hc with ⟨h1, h2⟩ | ⟨h1, h2⟩
  · simp only at h1 h2
    subst h1
    subst h2
    left
    rfl
  · simp only at h1 h2
    subst h2
    cases e with
    | none => exact absurd rfl h1
    | some ex =>
      cases ex with
      | typeError => right; rfl
      | assertionError => right; rfl
      | keyError => right; rfl
      | attributeError => right; rfl
      | critical m => right; rfl
      | captureErr m => right; rfl

/-- C8: `re_init(new_id)` first resets `active` and `init_done` to false,
then performs a best-effort close that never raises and never alters the
object state, then adopts the new id and re-runs exactly the construction
block on the flags-false state — so the flags are reset before the
protocol runs, whatever the outcome of the new init. -/
theorem re_init_resets_then_reruns (o : Native) (s : SrcState) (nid : PyVal) :
    (close o { s with active := false, init_done := false }).exc = Option.none ∧
      (close o { s with active := false, init_done := false }).state
        = { s with active := false, init_done := false } ∧
      re_init o s nid =
        ⟨(init_catching o
            { s with active := false, init_done := false, cam_id := nid }).exc,
          (init_catching o
            { s with active := false, init_done := false, cam_id := nid }).ret,
          (init_catching o
            { s with active := false, init_done := false, cam_id := nid }).state,
          (close o { s with active := false, init_done := false }).calls
            ++ (init_catching o
              { s with active := false, init_done := false, cam_id := nid }).calls,
          (close o { s with active := false, init_done := false }).log
            ++ (init_catching o
              { s with active := false, init_done := false, cam_id := nid }).log⟩ := by
  have hc := close_no_raise o { s with active := false, init_done := false }
  refine ⟨hc.1, hc.2.1, ?_⟩
  unfold re_init
  dsimp only
  rw [hc.2.1]

/-- `capture_frame` never mutates the object state. -/
theorem capture_frame_state_eq (o : Native) (s : SrcState) :
    (capture_frame o s).state = s := by
  unfold capture_frame
  repeat' split
  all_goals rfl

/-- `frame_length` never mutates the object state. -/
theorem frame_length_state_eq (s : SrcState) : (frame_length s).state = s := by
  unfold frame_length
  split
  · rfl
  · rfl

/-- `get_exposure` never mutates the object state. -/
theorem get_exposure_state_eq (s : SrcState) : (get_exposure s).state = s := rfl

/-- `set_exposure` only ever changes the register file: the object fields
(`cam_id`, flags, attributes) are untouched. -/
theorem set_exposure_state_eq (s : SrcState) (v : Int) :
    (set_exposure s v).state = { s with regs := (set_exposure s v).state.regs } := by
  unfold set_exposure
  split
  · rfl
  · rfl

/-- Every public operation preserves the invariant that `active` implies
`init_done`. -/
theorem applyOp_preserves_inv (o : Native) (s : SrcState) (op : Op)
    (h : s.active = true → s.init_done = true) :
    (applyOp o s op).active = true → (applyOp o s op).init_done = true := by
  cases op with
  | capture =>
    simp only [applyOp]
    rw [capture_frame_state_eq]
    exact h
  | closeOp =>
    simp only [applyOp]
    rw [(close_no_raise o s).2.1]
    exact h
  | reInit nid =>
    simp only [applyOp]
    unfold re_init
    dsimp only
    rw [(close_no_raise o { s with active := false, init_done := false }).2.1]
    rcases init_catching_state_cases o
        { s with active := false, init_done := false, cam_id := nid } with hcase | hcase
    · rw [hcase]
      intro _
      rfl
    · rw [hcase]
      intro hcon
      exact absurd hcon (by simp)
  | getExp =>
    simp only [applyOp]
    rw [get_exposure_state_eq]
    exact h
  | setExp v =>
    simp only [applyOp]
    unfold set_exposure
    split
    · exact h
    · exact h
  | getFrameLen =>
    simp only [applyOp]
    rw [frame_length_state_eq]
    exact h

/-- Running any sequence of public operations preserves the invariant. -/
theorem runOps_preserves_inv (ops : List (Native × Op)) :
    ∀ s : SrcState, (s.active = true → s.init_done = true) →
      (runOps s ops).active = true → (runOps s ops).init_done = true := by
  induction ops with
  | nil =>
    intro s h
    exact h
  | cons p rest ih =>
    intro s h
    exact ih (applyOp p.1 s p.2) (applyOp_preserves_inv p.1 s p.2 h)

/-- Construction establishes the invariant that `active` implies
`init_done`. -/
theorem mk_inv (o : Native) (cid : PyVal) (fs : Nat × Nat) (fr : Nat)
    (cfg : String) (dr : Regs) :
    (mk o cid fs fr cfg dr).state.active = true →
      (mk o cid fs fr cfg dr).state.init_done = true := by
  unfold mk
  rcases init_catching_state_cases o
      ⟨cid, fs, fr, cfg, false, false, Option.none, dr⟩ with hcase | hcase
  · rw [hcase]
    intro _
    rfl
  · rw [hcase]
    intro hcon
    exact absurd hcon (by simp)

/-- C9: `active` implies `init_done` in every state observable after
construction followed by any sequence of completed public operations
(capture, close, re_init, exposure get/set, frame_length): no operation
leaves the object with `active = true` and `init_done = false`. -/
theorem active_implies_init_done (o0 : Native) (cid : PyVal) (fs : Nat × Nat)
    (fr : Nat) (cfg : String) (dr : Regs) (ops : List (Native × Op)) :
    (runOps (mk o0 cid fs fr cfg dr).state ops).active = true →
      (runOps (mk o0 cid fs fr cfg dr).state ops).init_done = true :=
  runOps_preserves_inv ops (mk o0 cid fs fr cfg dr).state
    (mk_inv o0 cid fs fr cfg dr)

/-- C9 witness: after a fully successful construction (oracle returning
status 0 everywhere) and an empty operation sequence, `active` holds and
the invariant gives `init_done`. -/
theorem active_implies_init_done_witness :
    (runOps (mk oNoImage (PyVal.int 0) (2, 3) 60 "cfg" regsDemo).state []).active
        = true ∧
      (runOps (mk oNoImage (PyVal.int 0) (2, 3) 60 "cfg" regsDemo).state
          []).init_done = true :=
  ⟨by decide,
    active_implies_init_done oNoImage (PyVal.int 0) (2, 3) 60 "cfg" regsDemo []
      (by decide)⟩

/-- No public operation ever assigns the `_idx_backup` attribute. -/
theorem applyOp_idx_backup (o : Native) (s : SrcState) (op : Op) :
    (applyOp o s op).idx_backup = s.idx_backup := by
  cases op with
  | capture =>
    simp only [applyOp]
    rw [capture_frame_state_eq]
  | closeOp =>
    simp only [applyOp]
    rw [(close_no_raise o s).2.1]
  | reInit nid =>
    simp only [applyOp]
    unfold re_init
    dsimp only
    rw [(close_no_raise o { s with active := false, init_done := false }).2.1]
    rcases init_catching_state_cases o
        { s with active := false, init_done := false, cam_id := nid } with hcase | hcase
    · rw [hcase]
    · rw [hcase]
  | getExp =>
    simp only [applyOp]
    rw [get_exposure_state_eq]
  | setExp v =>
    simp only [applyOp]
    unfold set_exposure
    split
    · rfl
    · rfl
  | getFrameLen =>
    simp only [applyOp]
    rw [frame_length_state_eq]

/-- Running any sequence of public operations leaves `_idx_backup`
unassigned if it was unassigned. -/
theorem runOps_idx_backup (ops : List (Native × Op)) :
    ∀ s : SrcState, (runOps s ops).idx_backup = s.idx_backup := by
  induction ops with
  | nil =>
    intro s
    rfl
  | cons p rest ih =>
    intro s
    rw [runOps, ih (applyOp p.1 s p.2), applyOp_idx_backup]

/-- Construction leaves the `_idx_backup` attribute unassigned. -/
theorem mk_idx_backup (o : Native) (cid : PyVal) (fs : Nat × Nat) (fr : Nat)
    (cfg : String) (dr : Regs) :
    (mk o cid fs fr cfg dr).state.idx_backup = Option.none := by
  unfold mk
  rcases init_catching_state_cases o
      ⟨cid, fs, fr, cfg, false, false, Option.none, dr⟩ with hcase | hcase
  · rw [hcase]
  · rw [hcase]

/-- C10: in every state reachable from construction through any sequence
of public operations, the attribute `_idx_backup` read by the
`frame_length` getter was never assigned, so every `frame_length` call
raises AttributeError before any native call and never returns a
frame-length value. -/
theorem frame_length_always_raises (o0 : Native) (cid : PyVal)
    (fs : Nat × Nat) (fr : Nat) (cfg : String) (dr : Regs)
    (ops : List (Native × Op)) :
    (frame_length (runOps (mk o0 cid fs fr cfg dr).state ops)).exc
        = some PyExc.attributeError ∧
      (frame_length (runOps (mk o0 cid fs fr cfg dr).state ops)).ret
        = Option.none ∧
      (frame_length (runOps (mk o0 cid fs fr cfg dr).state ops)).calls = [] := by
  have hidx : (runOps (mk o0 cid fs fr cfg dr).state ops).idx_backup
      = Option.none := by
    rw [runOps_idx_backup, mk_idx_backup]
  unfold frame_length
  rw [hidx]
  exact ⟨rfl, rfl, rfl⟩

/-- When `initialize_device` returns a non-zero code present in
`ERROR_CODES`, the construction block catches the critical error, leaves
the state untouched, and logs the message carrying the taxonomy label. -/
theorem init_catching_open_code_known (o : Native) (s : SrcState) (r : Nat)
    (lbl : String) (hid : s.cam_id.isInt = true)
    (hi : o.init_device s.cfg_file s.cam_id = Except.ok r) (hr : ¬ r = 0)
    (hec : ERROR_CODES r = some lbl) :
    init_catching o s =
      ⟨Option.none, some (), s, [NCall.initDevice s.cfg_file s.cam_id],
        ["Attempting to open ArduCam with id " ++ pyStr s.cam_id,
          openCodeErrMsg s.cam_id r lbl]⟩ := by
  have hcam : init_cam o s =
      ⟨some (PyExc.critical (openCodeErrMsg s.cam_id r lbl)), Option.none, s,
        [NCall.initDevice s.cfg_file s.cam_id],
        ["Attempting to open ArduCam with id " ++ pyStr s.cam_id]⟩ := by
    unfold init_cam
    rw [hid, if_neg (show ¬(true = false) by simp), hi]
    dsimp only
    rw [if_neg hr, hec]
  unfold init_catching
  rw [hcam]
  rfl

/-- When `initialize_device` returns a non-zero code absent from
`ERROR_CODES`, the dict subscript raises `KeyError`, which the
construction block does not catch. -/
theorem init_catching_open_code_unknown (o : Native) (s : SrcState) (r : Nat)
    (hid : s.cam_id.isInt = true)
    (hi : o.init_device s.cfg_file s.cam_id = Except.ok r) (hr : ¬ r = 0)
    (hec : ERROR_CODES r = Option.none) :
    init_catching o s =
      ⟨some PyExc.keyError, Option.none, s,
        [NCall.initDevice s.cfg_file s.cam_id],
        ["Attempting to open ArduCam with id " ++ pyStr s.cam_id]⟩ := by
  have hcam : init_cam o s =
      ⟨some PyExc.keyError, Option.none, s,
        [NCall.initDevice s.cfg_file s.cam_id],
        ["Attempting to open ArduCam with id " ++ pyStr s.cam_id]⟩ := by
    unfold init_cam
    rw [hid, if_neg (show ¬(true = false) by simp), hi]
    dsimp only
    rw [if_neg hr, hec]
  unfold init_catching
  rw [hcam]

/-- When init succeeds but `begin_capture` returns a non-zero code present
in `ERROR_CODES`, the construction block catches the critical error,
leaves the state untouched, and logs the message with the label. -/
theorem init_catching_begin_code_known (o : Native) (s : SrcState) (r2 : Nat)
    (lbl : String) (hid : s.cam_id.isInt = true)
    (hi : o.init_device s.cfg_file s.cam_id = Except.ok 0)
    (hb : o.begin_capture s.cam_id = Except.ok r2) (hr2 : ¬ r2 = 0)
    (hec : ERROR_CODES r2 = some lbl) :
    init_catching o s =
      ⟨Option.none, some (), s,
        [NCall.initDevice s.cfg_file s.cam_id, NCall.beginCapture s.cam_id],
        ["Attempting to open ArduCam with id " ++ pyStr s.cam_id,
          "Success opening ArduCam with id " ++ pyStr s.cam_id,
          "Attempting to begin capture on ArduCam with id " ++ pyStr s.cam_id,
          beginCodeErrMsg s.cam_id r2 lbl]⟩ := by
  have hcam : init_cam o s =
      ⟨some (PyExc.critical (beginCodeErrMsg s.cam_id r2 lbl)), Option.none, s,
        [NCall.initDevice s.cfg_file s.cam_id, NCall.beginCapture s.cam_id],
        ["Attempting to open ArduCam with id " ++ pyStr s.cam_id,
          "Success opening ArduCam with id " ++ pyStr s.cam_id,
          "Attempting to begin capture on ArduCam with id " ++ pyStr s.cam_id]⟩ := by
    unfold init_cam
    rw [hid, if_neg (show ¬(true = false) by simp), hi]
    dsimp only
    rw [if_pos (show (0 : Nat) = 0 from rfl), hb]
    dsimp only
    rw [if_neg hr2, hec]
    rfl
  unfold init_catching
  rw [hcam]
  rfl

/-- When init succeeds but `begin_capture` returns a non-zero code absent
from `ERROR_CODES`, the dict subscript raises `KeyError`, which the
construction block does not catch. -/
theorem init_catching_begin_code_unknown (o : Native) (s : SrcState) (r2 : Nat)
    (hid : s.cam_id.isInt = true)
    (hi : o.init_device s.cfg_file s.cam_id = Except.ok 0)
    (hb : o.begin_capture s.cam_id = Except.ok r2) (hr2 : ¬ r2 = 0)
    (hec : ERROR_CODES r2 = Option.none) :
    init_catching o s =
      ⟨some PyExc.keyError, Option.none, s,
        [NCall.initDevice s.cfg_file s.cam_id, NCall.beginCapture s.cam_id],
        ["Attempting to open ArduCam with id " ++ pyStr s.cam_id,
          "Success opening ArduCam with id " ++ pyStr s.cam_id,
          "Attempting to begin capture on ArduCam with id " ++ pyStr s.cam_id]⟩ := by
  have hcam : init_cam o s =
      ⟨some PyExc.keyError, Option.none, s,
        [NCall.initDevice s.cfg_file s.cam_id, NCall.beginCapture s.cam_id],
        ["Attempting to open ArduCam with id " ++ pyStr s.cam_id,
          "Success opening ArduCam with id " ++ pyStr s.cam_id,
          "Attempting to begin capture on ArduCam with id " ++ pyStr s.cam_id]⟩ := by
    unfold init_cam
    rw [hid, if_neg (show ¬(true = false) by simp), hi]
    dsimp only
    rw [if_pos (show (0 : Nat) = 0 from rfl), hb]
    dsimp only
    rw [if_neg hr2, hec]
    rfl
  unfold init_catching
  rw [hcam]

/-- C1 counterexample: with a native layer whose `initialize_device`
returns the status code 0x1234 — a code with no entry in the error
table — construction does not complete: the `ERROR_CODES[ret]` subscript
raises `KeyError`, which `__init__` does not catch, so the lookup of an
unrecognized code does crash the caller. -/
theorem mk_unknown_code_crashes :
    (mk oUnknownCode (PyVal.int 0) (2, 3) 60 "cfg" regsDemo).exc
      = some PyExc.keyError := by decide

/-- C1 amended: for every non-zero init or begin-capture status code that
has an entry in the error table, construction completes without raising,
leaves `init_done = false` and `active = false`, and logs a message ending
in the code's taxonomy label; but for a code with no table entry there is
no generic fallback — the lookup raises `KeyError`, which propagates out
of the constructor. -/
theorem mk_fail_code_behaviour (o : Native) (cid : Int) (fs : Nat × Nat)
    (fr : Nat) (cfg : String) (dr : Regs) (ret : Nat)
    (h : firstFailCode o cfg cid = some ret) :
    (∀ lbl, ERROR_CODES ret = some lbl →
        (mk o (PyVal.int cid) fs fr cfg dr).exc = Option.none ∧
          (mk o (PyVal.int cid) fs fr cfg dr).state.active = false ∧
          (mk o (PyVal.int cid) fs fr cfg dr).state.init_done = false ∧
          ∃ m, m ∈ (mk o (PyVal.int cid) fs fr cfg dr).log ∧ ∃ p, m = p ++ lbl) ∧
      (ERROR_CODES ret = Option.none →
        (mk o (PyVal.int cid) fs fr cfg dr).exc = some PyExc.keyError) := by
  unfold firstFailCode at h
  cases hi : o.init_device cfg (PyVal.int cid) with
  | error e =>
    rw [hi] at h
    exact absurd h (by simp)
  | ok r =>
    rw [hi] at h
    dsimp only at h
    by_cases hr : r = 0
    · rw [if_pos hr] at h
      cases hb : o.begin_capture (PyVal.int cid) with
      | error e =>
        rw [hb] at h
        exact absurd h (by simp)
      | ok r2 =>
        rw [hb] at h
        dsimp only at h
        by_cases hr2 : r2 = 0
        · rw [if_pos hr2] at h
          exact absurd h (by simp)
        · rw [if_neg hr2] at h
          have hret : r2 = ret := Option.some.inj h
          subst hret
          subst hr
          constructor
          · intro lbl hlbl
            have hm := init_catching_begin_code_known o
              ⟨PyVal.int cid, fs, fr, cfg, false, false, Option.none, dr⟩
              r2 lbl rfl hi hb hr2 hlbl
            unfold mk
            rw [hm]
            refine ⟨rfl, rfl, rfl, beginCodeErrMsg (PyVal.int cid) r2 lbl, ?_,
              beginCodeErrPfx (PyVal.int cid) r2, rfl⟩
            simp
          · intro hec
            have hm := init_catching_begin_code_unknown o
              ⟨PyVal.int cid, fs, fr, cfg, false, false, Option.none, dr⟩
              r2 rfl hi hb hr2 hec
            unfold mk
            rw [hm]
    · rw [if_neg hr] at h
      have hret : r = ret := Option.some.inj h
      subst hret
      constructor
      · intro lbl hlbl
        have hm := init_catching_open_code_known o
          ⟨PyVal.int cid, fs, fr, cfg, false, false, Option.none, dr⟩
          r lbl rfl hi hr hlbl
        unfold mk
        rw [hm]
        refine ⟨rfl, rfl, rfl, openCodeErrMsg (PyVal.int cid) r lbl, ?_,
          openCodeErrPfx (PyVal.int cid) r, rfl⟩
        simp
      · intro hec
        have hm := init_catching_open_code_unknown o
          ⟨PyVal.int cid, fs, fr, cfg, false, false, Option.none, dr⟩
          r rfl hi hr hec
        unfold mk
        rw [hm]

/-- C1 witness: begin-capture failing with 0xFF71 (the board-firmware
code) leaves the object inert without raising and logs the
`USB_BOARD_FW_VERSION_NOT_SUPPORT_ERROR` label. -/
theorem mk_fail_code_behaviour_witness :
    firstFailCode oFw71 "cfg" 0 = some 0xFF71 ∧
      ERROR_CODES 0xFF71 = some "USB_BOARD_FW_VERSION_NOT_SUPPORT_ERROR" ∧
      ((mk oFw71 (PyVal.int 0) (2, 3) 60 "cfg" regsDemo).exc = Option.none ∧
        (mk oFw71 (PyVal.int 0) (2, 3) 60 "cfg" regsDemo).state.active = false ∧
        (mk oFw71 (PyVal.int 0) (2, 3) 60 "cfg" regsDemo).state.init_done
          = false ∧
        ∃ m, m ∈ (mk oFw71 (PyVal.int 0) (2, 3) 60 "cfg" regsDemo).log ∧
          ∃ p, m = p ++ "USB_BOARD_FW_VERSION_NOT_SUPPORT_ERROR") :=
  ⟨rfl, rfl,
    (mk_fail_code_behaviour oFw71 0 (2, 3) 60 "cfg" regsDemo 0xFF71 rfl).1
      "USB_BOARD_FW_VERSION_NOT_SUPPORT_ERROR" rfl⟩
